import Mathlib

/-!
Verification development for the rivet continuous-deployment watcher.

The Go sources are shallowly embedded: the repository controller
(package repository in executor.go), the configuration defaulting loop
(config.go) and one iteration of the monitor loop (watcher.go).
External effects (the process runner, the filesystem probes, path
resolution and context cancellation) are supplied by an explicit
environment record; every operation returns its result together with
the updated controller state and the trace of external events it issued.
-/

/-- Result of running one external command, as returned by the
CommandExecutor interface: stdout, stderr, exit code and the Go error
(none models a nil error). -/
structure ExecResult where
  stdout : String
  stderr : String
  exitCode : Int
  err : Option String
deriving Repr, DecidableEq

/-- One external command: working directory, program name and argument list. -/
structure Cmd where
  workingDir : String
  command : String
  args : List String
deriving Repr, DecidableEq

/-- Observable external events issued by the controller: executing a
command, or completing the fixed settle wait inside deploy. -/
inductive Event where
  | exec (c : Cmd)
  | wait
deriving Repr, DecidableEq

/-- Result of an os.Stat probe: the path exists, does not exist
(os.IsNotExist), or some other filesystem error occurred. -/
inductive StatResult where
  | ok
  | notExist
  | otherError (msg : String)
deriving Repr, DecidableEq

/-- Error kinds surfaced by the controller operations. -/
inductive RErr where
  | configError (msg : String)
  | fsError (msg : String)
  | execError (exitCode : Int) (stderr : String)
  | notInitialized
  | cancelled
deriving Repr, DecidableEq

/-- The external world seen by one controller: the process runner
(exec), the filesystem probes (stat, mkdir), absolute path resolution
(abs, none models a failure of filepath.Abs), and the cancellation
state of the surrounding context, observed at successive checkpoints
numbered by a clock. -/
structure Env where
  exec : Cmd → ExecResult
  stat : String → StatResult
  mkdir : String → Option String
  abs : String → Option String
  cancelled : Nat → Bool

/-- Per-repository configuration (config.RepositoryConfig). -/
structure RepositoryConfig where
  basePath : String
  gitURL : String
  cloneDirName : String
  branch : String
  serviceName : String
  composeFile : String
  checkIntervalSeconds : Int
deriving Repr, DecidableEq

/-- The controller state (repository.Repository): configuration, the
initialized flag and the cached working path (none models the empty
cache). -/
structure Repo where
  config : RepositoryConfig
  isInitialised : Bool
  workingPath : Option String
deriving Repr, DecidableEq

instance {ε α : Type} [DecidableEq ε] [DecidableEq α] : DecidableEq (Except ε α) := fun a b =>
  match a, b with
  | .error e, .error f =>
    if h : e = f then .isTrue (by rw [h]) else .isFalse (by intro hc; cases hc; exact h rfl)
  | .error _, .ok _ => .isFalse (by intro hc; cases hc)
  | .ok _, .error _ => .isFalse (by intro hc; cases hc)
  | .ok x, .ok y =>
    if h : x = y then .isTrue (by rw [h]) else .isFalse (by intro hc; cases hc; exact h rfl)

/-- Models filepath.Join of two components. -/
def joinPath (a b : String) : String := a ++ "/" ++ b

/-- Models filepath.IsAbs on a Unix system: the path starts with a slash. -/
def isAbsPath (p : String) : Bool := p.data.head? = some '/'

/-- Models strings.TrimSpace: drop whitespace from both ends. -/
def trimSpace (s : String) : String :=
  ⟨((s.data.dropWhile fun c => c.isWhitespace).reverse.dropWhile fun c => c.isWhitespace).reverse⟩

/-- Repository.getWorkingPath: return the cached path if present,
otherwise fail when basePath or cloneDirName is empty, resolve the
absolute base path and cache the joined working path. -/
def getWorkingPath (env : Env) (r : Repo) : Except RErr String × Repo :=
  match r.workingPath with
  | some p => (.ok p, r)
  | none =>
    if r.config.basePath = "" || r.config.cloneDirName = "" then
      (.error (.configError "basePath or cloneDirName is empty in repository config"), r)
    else
      match env.abs r.config.basePath with
      | none => (.error (.fsError "failed to get absolute path for basePath"), r)
      | some absBase =>
        (.ok (joinPath absBase r.config.cloneDirName),
         { r with workingPath := some (joinPath absBase r.config.cloneDirName) })

/-- The working directory the later operations use: Go ignores the
error of getWorkingPath there (workDir, _ := r.getWorkingPath()), so an
error leaves the empty string. -/
def workDirOr (env : Env) (r : Repo) : String × Repo :=
  match getWorkingPath env r with
  | (.ok p, r1) => (p, r1)
  | (.error _, r1) => ("", r1)

/-- The clone command: git clone -b branch url cloneDirName, run in the
base path. -/
def cloneCmd (cfg : RepositoryConfig) : Cmd :=
  ⟨cfg.basePath, "git", ["clone", "-b", cfg.branch, cfg.gitURL, cfg.cloneDirName]⟩

/-- The clone step of ensureCloned: run git clone; a spawn failure or a
non-zero exit leaves the initialized flag untouched, success sets it. -/
def doClone (env : Env) (r : Repo) : Except RErr Unit × Repo × List Event :=
  let res := env.exec (cloneCmd r.config)
  if res.err.isSome then
    (.error (.execError res.exitCode res.stderr), r, [.exec (cloneCmd r.config)])
  else if res.exitCode != 0 then
    (.error (.execError res.exitCode res.stderr), r, [.exec (cloneCmd r.config)])
  else
    (.ok (), { r with isInitialised := true }, [.exec (cloneCmd r.config)])

/-- Repository.ensureCloned: return at once when initialized; resolve
the working path; probe for the .git marker (present: mark initialized,
other stat error: fail); ensure the base path exists (creating it when
absent); then clone. -/
def ensureCloned (env : Env) (r : Repo) : Except RErr Unit × Repo × List Event :=
  if r.isInitialised then (.ok (), r, [])
  else
    match getWorkingPath env r with
    | (.error e, r1) => (.error e, r1, [])
    | (.ok wd, r1) =>
      match env.stat (joinPath wd ".git") with
      | .ok => (.ok (), { r1 with isInitialised := true }, [])
      | .otherError m => (.error (.fsError m), r1, [])
      | .notExist =>
        match env.stat r1.config.basePath with
        | .notExist =>
          match env.mkdir r1.config.basePath with
          | some m => (.error (.fsError m), r1, [])
          | none => doClone env r1
        | .otherError m => (.error (.fsError m), r1, [])
        | .ok => doClone env r1

/-- git fetch origin branch --prune -/
def fetchCmd (wd branch : String) : Cmd :=
  ⟨wd, "git", ["fetch", "origin", branch, "--prune"]⟩

/-- git rev-parse HEAD -/
def revParseHeadCmd (wd : String) : Cmd :=
  ⟨wd, "git", ["rev-parse", "HEAD"]⟩

/-- git rev-parse origin/branch -/
def revParseRemoteCmd (wd branch : String) : Cmd :=
  ⟨wd, "git", ["rev-parse", "origin/" ++ branch]⟩

/-- git merge-base --is-ancestor local remote -/
def mergeBaseCmd (wd lo re : String) : Cmd :=
  ⟨wd, "git", ["merge-base", "--is-ancestor", lo, re]⟩

/-- The fetch command CheckForUpdates issues. -/
def fetchCmdOf (env : Env) (r : Repo) : Cmd :=
  fetchCmd (workDirOr env r).1 r.config.branch

/-- The local rev-parse command CheckForUpdates issues. -/
def localCmdOf (env : Env) (r : Repo) : Cmd :=
  revParseHeadCmd (workDirOr env r).1

/-- The remote rev-parse command CheckForUpdates issues. -/
def remoteCmdOf (env : Env) (r : Repo) : Cmd :=
  revParseRemoteCmd (workDirOr env r).1 r.config.branch

/-- Runner result of the fetch step. -/
def fetchResOf (env : Env) (r : Repo) : ExecResult := env.exec (fetchCmdOf env r)

/-- Runner result of the local HEAD resolution. -/
def localResOf (env : Env) (r : Repo) : ExecResult := env.exec (localCmdOf env r)

/-- Runner result of the remote-tracking resolution. -/
def remoteResOf (env : Env) (r : Repo) : ExecResult := env.exec (remoteCmdOf env r)

/-- The local commit identifier: trimmed stdout of rev-parse HEAD
(strings.TrimSpace). -/
def localCommitOf (env : Env) (r : Repo) : String := trimSpace (localResOf env r).stdout

/-- The remote commit identifier: trimmed stdout of rev-parse origin/branch. -/
def remoteCommitOf (env : Env) (r : Repo) : String := trimSpace (remoteResOf env r).stdout

/-- The ancestor-check command CheckForUpdates issues on differing commits. -/
def ancestorCmdOf (env : Env) (r : Repo) : Cmd :=
  mergeBaseCmd (workDirOr env r).1 (localCommitOf env r) (remoteCommitOf env r)

/-- Runner result of the ancestor check. -/
def ancestorResOf (env : Env) (r : Repo) : ExecResult := env.exec (ancestorCmdOf env r)

/-- Repository.CheckForUpdates: requires initialized; fetch; resolve
local and remote commits; equal commits mean no updates; otherwise run
the ancestor check, whose exit 0 means updates, exit 1 means no
updates, and any error with another exit code is a failure. -/
def CheckForUpdates (env : Env) (r : Repo) : Except RErr Bool × Repo × List Event :=
  if !r.isInitialised then (.error .notInitialized, r, [])
  else
    let r1 := (workDirOr env r).2
    let fres := fetchResOf env r
    if fres.err.isSome || fres.exitCode != 0 then
      (.error (.execError fres.exitCode fres.stderr), r1, [.exec (fetchCmdOf env r)])
    else
      let lres := localResOf env r
      if lres.err.isSome || lres.exitCode != 0 then
        (.error (.execError lres.exitCode lres.stderr), r1,
         [.exec (fetchCmdOf env r), .exec (localCmdOf env r)])
      else
        let rres := remoteResOf env r
        if rres.err.isSome || rres.exitCode != 0 then
          (.error (.execError rres.exitCode rres.stderr), r1,
           [.exec (fetchCmdOf env r), .exec (localCmdOf env r), .exec (remoteCmdOf env r)])
        else
          if localCommitOf env r = remoteCommitOf env r then
            (.ok false, r1,
             [.exec (fetchCmdOf env r), .exec (localCmdOf env r), .exec (remoteCmdOf env r)])
          else
            let ares := ancestorResOf env r
            if ares.err.isSome && ares.exitCode != 0 && ares.exitCode != 1 then
              (.error (.execError ares.exitCode ares.stderr), r1,
               [.exec (fetchCmdOf env r), .exec (localCmdOf env r), .exec (remoteCmdOf env r),
                .exec (ancestorCmdOf env r)])
            else if ares.exitCode == 0 then
              (.ok true, r1,
               [.exec (fetchCmdOf env r), .exec (localCmdOf env r), .exec (remoteCmdOf env r),
                .exec (ancestorCmdOf env r)])
            else
              (.ok false, r1,
               [.exec (fetchCmdOf env r), .exec (localCmdOf env r), .exec (remoteCmdOf env r),
                .exec (ancestorCmdOf env r)])

/-- git pull origin branch --ff-only -/
def pullCmd (wd branch : String) : Cmd :=
  ⟨wd, "git", ["pull", "origin", branch, "--ff-only"]⟩

/-- The pull command PullChanges issues. -/
def pullCmdOf (env : Env) (r : Repo) : Cmd :=
  pullCmd (workDirOr env r).1 r.config.branch

/-- Repository.PullChanges: requires initialized; fast-forward-only pull. -/
def PullChanges (env : Env) (r : Repo) : Except RErr Unit × Repo × List Event :=
  if !r.isInitialised then (.error .notInitialized, r, [])
  else
    let r1 := (workDirOr env r).2
    let res := env.exec (pullCmdOf env r)
    if res.err.isSome || res.exitCode != 0 then
      (.error (.execError res.exitCode res.stderr), r1, [.exec (pullCmdOf env r)])
    else
      (.ok (), r1, [.exec (pullCmdOf env r)])

/-- The compose-file path: absolute paths used as-is, relative paths
resolved against the working path. -/
def composePath (wd : String) (cfg : RepositoryConfig) : String :=
  if isAbsPath cfg.composeFile then cfg.composeFile else joinPath wd cfg.composeFile

/-- docker compose -f manifest build --pull, scoped to the service when named. -/
def buildCmd (wd cfp svc : String) : Cmd :=
  ⟨wd, "docker",
   ["compose", "-f", cfp, "build", "--pull"] ++ (if svc != "" then [svc] else [])⟩

/-- The build command BuildContainers issues. -/
def buildCmdOf (env : Env) (r : Repo) : Cmd :=
  buildCmd (workDirOr env r).1 (composePath (workDirOr env r).1 r.config) r.config.serviceName

/-- Repository.BuildContainers: requires initialized; container-image build. -/
def BuildContainers (env : Env) (r : Repo) : Except RErr Unit × Repo × List Event :=
  if !r.isInitialised then (.error .notInitialized, r, [])
  else
    let r1 := (workDirOr env r).2
    let res := env.exec (buildCmdOf env r)
    if res.err.isSome || res.exitCode != 0 then
      (.error (.execError res.exitCode res.stderr), r1, [.exec (buildCmdOf env r)])
    else
      (.ok (), r1, [.exec (buildCmdOf env r)])

/-- docker compose -f manifest up -d --no-deps --scale svc=n --no-recreate svc -/
def scaleUpCmd (wd cfp svc : String) (n : Int) : Cmd :=
  ⟨wd, "docker",
   ["compose", "-f", cfp, "up", "-d", "--no-deps",
    "--scale", svc ++ "=" ++ toString n, "--no-recreate", svc]⟩

/-- docker compose -f manifest up -d --scale svc=n --no-recreate svc -/
def scaleDownCmd (wd cfp svc : String) (n : Int) : Cmd :=
  ⟨wd, "docker",
   ["compose", "-f", cfp, "up", "-d",
    "--scale", svc ++ "=" ++ toString n, "--no-recreate", svc]⟩

/-- The scale-up command DeployContainers issues: baseline 1 scaled to 2. -/
def deployUpCmdOf (env : Env) (r : Repo) : Cmd :=
  scaleUpCmd (workDirOr env r).1 (composePath (workDirOr env r).1 r.config)
    r.config.serviceName (1 + 1)

/-- The scale-down command DeployContainers issues: back to baseline 1. -/
def deployDownCmdOf (env : Env) (r : Repo) : Cmd :=
  scaleDownCmd (workDirOr env r).1 (composePath (workDirOr env r).1 r.config)
    r.config.serviceName 1

/-- Repository.DeployContainers: requires initialized; scale the
service up, then wait the fixed settle delay racing the cancellation
signal (observed at the given clock), then scale back down. The clock
advances by one across the settle-wait observation. -/
def DeployContainers (env : Env) (clock : Nat) (r : Repo) :
    Except RErr Unit × Repo × Nat × List Event :=
  if !r.isInitialised then (.error .notInitialized, r, clock, [])
  else
    let r1 := (workDirOr env r).2
    let ures := env.exec (deployUpCmdOf env r)
    if ures.err.isSome || ures.exitCode != 0 then
      (.error (.execError ures.exitCode ures.stderr), r1, clock, [.exec (deployUpCmdOf env r)])
    else if env.cancelled clock then
      (.error .cancelled, r1, clock + 1, [.exec (deployUpCmdOf env r)])
    else
      let dres := env.exec (deployDownCmdOf env r)
      if dres.err.isSome || dres.exitCode != 0 then
        (.error (.execError dres.exitCode dres.stderr), r1, clock + 1,
         [.exec (deployUpCmdOf env r), .wait, .exec (deployDownCmdOf env r)])
      else
        (.ok (), r1, clock + 1,
         [.exec (deployUpCmdOf env r), .wait, .exec (deployDownCmdOf env r)])

/-- Repository.Process: ensure cloned, check for updates, and when
updates are found pull, build and deploy, checking the context between
every step. Each ctx.Err() observation consumes one clock tick; the
deploy settle wait observes the context at clock + 4. -/
def Process (env : Env) (clock : Nat) (r : Repo) :
    Except RErr Unit × Repo × Nat × List Event :=
  match ensureCloned env r with
  | (.error e, r1, t1) => (.error e, r1, clock, t1)
  | (.ok _, r1, t1) =>
    if env.cancelled clock then (.error .cancelled, r1, clock + 1, t1)
    else
      match CheckForUpdates env r1 with
      | (.error e, r2, t2) => (.error e, r2, clock + 1, t1 ++ t2)
      | (.ok updatesFound, r2, t2) =>
        if env.cancelled (clock + 1) then (.error .cancelled, r2, clock + 2, t1 ++ t2)
        else if !updatesFound then (.ok (), r2, clock + 2, t1 ++ t2)
        else
          match PullChanges env r2 with
          | (.error e, r3, t3) => (.error e, r3, clock + 2, t1 ++ t2 ++ t3)
          | (.ok _, r3, t3) =>
            if env.cancelled (clock + 2) then
              (.error .cancelled, r3, clock + 3, t1 ++ t2 ++ t3)
            else
              match BuildContainers env r3 with
              | (.error e, r4, t4) => (.error e, r4, clock + 3, t1 ++ t2 ++ t3 ++ t4)
              | (.ok _, r4, t4) =>
                if env.cancelled (clock + 3) then
                  (.error .cancelled, r4, clock + 4, t1 ++ t2 ++ t3 ++ t4)
                else
                  match DeployContainers env (clock + 4) r4 with
                  | (.error e, r5, c5, t5) =>
                    (.error e, r5, c5, t1 ++ t2 ++ t3 ++ t4 ++ t5)
                  | (.ok _, r5, c5, t5) =>
                    if env.cancelled c5 then
                      (.error .cancelled, r5, c5 + 1, t1 ++ t2 ++ t3 ++ t4 ++ t5)
                    else
                      (.ok (), r5, c5 + 1, t1 ++ t2 ++ t3 ++ t4 ++ t5)

/-- The branch a select statement commits to. -/
inductive SelectBranch where
  | tick
  | done
deriving Repr, DecidableEq

/-- Observable outcome of one iteration of the monitor loop: whether
the loop returned, whether it invoked a process-once cycle, and the
events that cycle issued. -/
structure MonitorOutcome where
  exited : Bool
  ranCycle : Bool
  trace : List Event
deriving Repr, DecidableEq

/-- One iteration of the select loop in Watcher.monitorRepository: the
select races the ticker against ctx.Done(). When only one channel is
ready that branch runs; when both are ready the Go select chooses
pseudo-randomly among them, modelled by the choose argument. The tick
branch runs Process and then re-checks ctx.Err(), returning when the
context is cancelled. -/
def monitorStep (env : Env) (clock : Nat) (r : Repo) (tickReady cancelled : Bool)
    (choose : SelectBranch) : MonitorOutcome × Repo :=
  let branch :=
    if tickReady && cancelled then choose
    else if cancelled then SelectBranch.done
    else SelectBranch.tick
  match branch with
  | .done => (⟨true, false, []⟩, r)
  | .tick =>
    let p := Process env clock r
    if cancelled then (⟨true, true, p.2.2.2⟩, p.2.1)
    else (⟨false, true, p.2.2.2⟩, p.2.1)

/-- config.DefaultCheckIntervalSeconds -/
def DefaultCheckIntervalSeconds : Int := 5 * 60

/-- config.DefaultComposeFile -/
def DefaultComposeFile : String := "docker-compose.yml"

/-- The defaulting applied to one validated repository entry: an empty
compose-file name becomes the default, and a non-positive check
interval becomes the default. -/
def applyDefaults (repo : RepositoryConfig) : RepositoryConfig :=
  let repo1 :=
    if repo.composeFile = "" then { repo with composeFile := DefaultComposeFile } else repo
  if repo1.checkIntervalSeconds ≤ 0 then
    { repo1 with checkIntervalSeconds := DefaultCheckIntervalSeconds }
  else repo1

/-- Validation of one repository entry at its index: each required
field must be non-empty, after which the defaults are applied. -/
def validateRepo (i : Nat) (repo : RepositoryConfig) : Except String RepositoryConfig :=
  if repo.basePath = "" then
    .error ("repository config at index " ++ toString i ++ " missing required basePath")
  else if repo.gitURL = "" then
    .error "repository config missing required gitUrl"
  else if repo.cloneDirName = "" then
    .error "repository config missing required cloneDirName"
  else if repo.branch = "" then
    .error "repository config missing required branch"
  else if repo.serviceName = "" then
    .error "repository config missing required serviceName"
  else
    .ok (applyDefaults repo)

/-- The validate-and-default loop over the repository entries, failing
at the first invalid entry. -/
def validateAndDefault : Nat → List RepositoryConfig → Except String (List RepositoryConfig)
  | _, [] => .ok []
  | i, repo :: rest =>
    match validateRepo i repo with
    | .error e => .error e
    | .ok repo1 =>
      match validateAndDefault (i + 1) rest with
      | .error e => .error e
      | .ok rest1 => .ok (repo1 :: rest1)

/-- config.AppConfig -/
structure AppConfig where
  repositories : List RepositoryConfig
deriving Repr, DecidableEq

/-- config.LoadConfig, modelling the phase after the file has been read
and unmarshalled (the file read and the structured-text parse are
external collaborators): validate every entry and apply the defaults. -/
def LoadConfig (cfg : AppConfig) : Except String AppConfig :=
  match validateAndDefault 0 cfg.repositories with
  | .error e => .error e
  | .ok repos => .ok ⟨repos⟩

/-- Recognizes the fast-forward pull command. -/
def Cmd.isPullCmd (c : Cmd) : Bool :=
  c.command = "git" && c.args.head? = some "pull"

/-- Recognizes the container build command. -/
def Cmd.isBuildCmd (c : Cmd) : Bool :=
  c.command = "docker" && (c.args.drop 3).head? = some "build"

/-- Recognizes the deploy scale-up command (the up variant carrying --no-deps). -/
def Cmd.isScaleUpCmd (c : Cmd) : Bool :=
  c.command = "docker" && (c.args.drop 3).head? = some "up" &&
    (c.args.drop 5).head? = some "--no-deps"

/-- Recognizes the deploy scale-down command (the up variant without --no-deps). -/
def Cmd.isScaleDownCmd (c : Cmd) : Bool :=
  c.command = "docker" && (c.args.drop 3).head? = some "up" &&
    (c.args.drop 5).head? = some "--scale"

/-- An event belonging to the pull, build or deploy steps. -/
def Event.isDeployStep : Event → Bool
  | .exec c => c.isPullCmd || c.isBuildCmd || c.isScaleUpCmd || c.isScaleDownCmd
  | .wait => false

/-- An event belonging to the build or deploy steps. -/
def Event.isBuildOrScale : Event → Bool
  | .exec c => c.isBuildCmd || c.isScaleUpCmd || c.isScaleDownCmd
  | .wait => false

/-- An event belonging to the deploy scale steps. -/
def Event.isScaleStep : Event → Bool
  | .exec c => c.isScaleUpCmd || c.isScaleDownCmd
  | .wait => false

/-- A clone command event. -/
def Event.isCloneEv : Event → Bool
  | .exec c => c.command = "git" && c.args.head? = some "clone"
  | .wait => false

/-- No pull, build, scale-up or scale-down command occurs in the trace. -/
def noDeployCmds (t : List Event) : Bool := t.all fun e => ! e.isDeployStep

/-- No build, scale-up or scale-down command occurs in the trace. -/
def noBuildScale (t : List Event) : Bool := t.all fun e => ! e.isBuildOrScale

/-- No scale-up or scale-down command occurs in the trace. -/
def noScaleCmds (t : List Event) : Bool := t.all fun e => ! e.isScaleStep

/-- Number of clone commands in the trace. -/
def cloneCount (t : List Event) : Nat := t.countP Event.isCloneEv

/-- A successful runner result. -/
def okRes : ExecResult := ⟨"", "", 0, none⟩

/-- A runner keyed on the two rev-parse commands, succeeding on
everything else: the local HEAD resolves to lo, the remote to re. -/
def execAB (lo re : String) : Cmd → ExecResult := fun c =>
  if c.args = ["rev-parse", "HEAD"] then ⟨lo, "", 0, none⟩
  else if c.args = ["rev-parse", "origin/main"] then ⟨re, "", 0, none⟩
  else okRes

/-- An environment with a well-behaved filesystem (every stat finds the
path, mkdir succeeds, abs is the identity). -/
def mkEnv (ex : Cmd → ExecResult) (can : Nat → Bool) : Env :=
  ⟨ex, fun _ => .ok, fun _ => none, fun s => some s, can⟩

/-- A sample configuration. -/
def cfgW : RepositoryConfig := ⟨"/b", "u", "d", "main", "svc", "c.yml", 300⟩

/-- A freshly constructed controller for cfgW. -/
def repoW : Repo := ⟨cfgW, false, none⟩

/-- The controller for cfgW once initialized with its path cached. -/
def repoWInit : Repo := ⟨cfgW, true, some "/b/d"⟩

/-- Environment where local and remote commits resolve identically. -/
def envEq : Env := mkEnv (execAB "abc123" "abc123") (fun _ => false)

/-- Environment where the commits differ and the ancestor check fails
with exit code 128. -/
def envAnc : Env := mkEnv
  (fun c =>
    if c.args.head? = some "merge-base" then ⟨"", "fatal", 128, some "exit status 128"⟩
    else execAB "abc123" "def456" c)
  (fun _ => false)

/-- Environment where every docker command fails with exit code 1. -/
def envDockerFail : Env := mkEnv
  (fun c => if c.command = "docker" then ⟨"", "boom", 1, some "exit status 1"⟩ else okRes)
  (fun _ => false)

/-- Environment where all commands succeed, commits differ, and the
context is cancelled from the first observation on. -/
def envCancelNow : Env := mkEnv (execAB "abc123" "def456") (fun _ => true)

/-- Environment where all commands succeed, commits are equal, and the
context becomes cancelled at observation 1 (right after the update check). -/
def envCancelAfterCheck : Env := mkEnv (execAB "abc123" "abc123") (fun n => decide (1 ≤ n))

/-- Environment where all commands succeed, commits differ, and the
context becomes cancelled at observation 5 (right after deploy finished). -/
def envCancelAfterDeploy : Env := mkEnv (execAB "abc123" "def456") (fun n => decide (5 ≤ n))

/-- Environment where the commits differ and the pull command fails
with exit code 1. -/
def envPullFail : Env := mkEnv
  (fun c =>
    if c.args.head? = some "pull" then ⟨"", "pullfail", 1, some "exit status 1"⟩
    else execAB "abc123" "def456" c)
  (fun _ => false)

/-- Environment where nothing exists on disk yet and the clone command
always fails with exit code 1. -/
def envCloneFail : Env :=
  ⟨fun _ => ⟨"", "fatal: repo not found", 1, some "exit status 1"⟩,
   fun _ => .notExist, fun _ => none, fun s => some s, fun _ => false⟩

/-- Environment with equal commits and an already-cancelled context,
used for the monitor race. -/
def envTickRace : Env := mkEnv (execAB "abc123" "abc123") (fun _ => true)

/-- A parsed configuration whose single entry leaves the compose file
and the check interval unset. -/
def cfgRaw : AppConfig := ⟨[⟨"/b", "u", "d", "main", "svc", "", 0⟩]⟩

/-- The same entry after defaulting. -/
def cfgDefaulted : AppConfig := ⟨[⟨"/b", "u", "d", "main", "svc", "docker-compose.yml", 300⟩]⟩

/-- Claim C1: for every initialized repository controller, once the
fetch and both commit resolutions succeed, detect-updates returns false
whenever the local and remote resolved commit identifiers are equal
(for any identifier value, and the trace shows the ancestor check is
not run); when they differ it returns true exactly when the ancestor
check exits 0, and returns false (not an error) when it exits 1. -/
theorem checkForUpdates_equal_or_ancestor_c1 (env : Env) (r : Repo)
    (hinit : r.isInitialised = true)
    (hf1 : (fetchResOf env r).err = none) (hf2 : (fetchResOf env r).exitCode = 0)
    (hl1 : (localResOf env r).err = none) (hl2 : (localResOf env r).exitCode = 0)
    (hr1 : (remoteResOf env r).err = none) (hr2 : (remoteResOf env r).exitCode = 0) :
    (localCommitOf env r = remoteCommitOf env r →
      CheckForUpdates env r =
        (.ok false, (workDirOr env r).2,
         [.exec (fetchCmdOf env r), .exec (localCmdOf env r), .exec (remoteCmdOf env r)]))
    ∧ (localCommitOf env r ≠ remoteCommitOf env r →
       ((ancestorResOf env r).exitCode = 0 →
          CheckForUpdates env r =
            (.ok true, (workDirOr env r).2,
             [.exec (fetchCmdOf env r), .exec (localCmdOf env r), .exec (remoteCmdOf env r),
              .exec (ancestorCmdOf env r)]))
       ∧ ((ancestorResOf env r).exitCode = 1 →
          CheckForUpdates env r =
            (.ok false, (workDirOr env r).2,
             [.exec (fetchCmdOf env r), .exec (localCmdOf env r), .exec (remoteCmdOf env r),
              .exec (ancestorCmdOf env r)]))) := by
  refine ⟨fun heq => ?_, fun hne => ⟨fun h0 => ?_, fun h1 => ?_⟩⟩
  · simp [CheckForUpdates, hinit, hf1, hf2, hl1, hl2, hr1, hr2, heq]
  · simp [CheckForUpdates, hinit, hf1, hf2, hl1, hl2, hr1, hr2, hne, h0]
  · have hbe : ((1 : Int) == 0) = false := by decide
    simp [CheckForUpdates, hinit, hf1, hf2, hl1, hl2, hr1, hr2, hne, h1, hbe]

/-- Witness for C1 at a concrete input: equal commits give no updates. -/
theorem checkForUpdates_equal_or_ancestor_c1_witness :
    repoWInit.isInitialised = true ∧
    (fetchResOf envEq repoWInit).err = none ∧
    localCommitOf envEq repoWInit = remoteCommitOf envEq repoWInit ∧
    (CheckForUpdates envEq repoWInit).1 = .ok false :=
  ⟨rfl, by decide, by decide, by
    have h := (checkForUpdates_equal_or_ancestor_c1 envEq repoWInit rfl (by decide) (by decide)
      (by decide) (by decide) (by decide) (by decide)).1 (by decide)
    rw [h]⟩

/-- Claim C2: for every initialized repository controller, when the
commits differ and the ancestor check finishes with an exit code other
than 0 or 1 together with a non-nil runner error (which the runner
contract guarantees for every non-zero exit and for spawn failures),
detect-updates fails with ExternalCommandError and does not return
false. -/
theorem checkForUpdates_ancestor_error_c2 (env : Env) (r : Repo)
    (hinit : r.isInitialised = true)
    (hf1 : (fetchResOf env r).err = none) (hf2 : (fetchResOf env r).exitCode = 0)
    (hl1 : (localResOf env r).err = none) (hl2 : (localResOf env r).exitCode = 0)
    (hr1 : (remoteResOf env r).err = none) (hr2 : (remoteResOf env r).exitCode = 0)
    (hne : localCommitOf env r ≠ remoteCommitOf env r)
    (herr : (ancestorResOf env r).err.isSome = true)
    (h0 : (ancestorResOf env r).exitCode ≠ 0)
    (h1 : (ancestorResOf env r).exitCode ≠ 1) :
    CheckForUpdates env r =
      (.error (.execError (ancestorResOf env r).exitCode (ancestorResOf env r).stderr),
       (workDirOr env r).2,
       [.exec (fetchCmdOf env r), .exec (localCmdOf env r), .exec (remoteCmdOf env r),
        .exec (ancestorCmdOf env r)]) := by
  simp [CheckForUpdates, hinit, hf1, hf2, hl1, hl2, hr1, hr2, hne, herr, bne_iff_ne, h0, h1]

/-- Witness for C2 at a concrete input: ancestor check exiting 128. -/
theorem checkForUpdates_ancestor_error_c2_witness :
    (ancestorResOf envAnc repoWInit).exitCode = 128 ∧
    (ancestorResOf envAnc repoWInit).err.isSome = true ∧
    (CheckForUpdates envAnc repoWInit).1 = .error (.execError 128 "fatal") :=
  ⟨by decide, by decide, by
    have h := checkForUpdates_ancestor_error_c2 envAnc repoWInit rfl (by decide) (by decide)
      (by decide) (by decide) (by decide) (by decide) (by decide) (by decide)
      (by decide) (by decide)
    rw [h]; decide⟩

/-- Claim C6: for every initialized repository controller, when the
scale-up step fails (spawn failure or non-zero exit), deploy returns an
ExternalCommandError at once: the trace holds only the scale-up
command, with no settle wait and no scale-down, and the clock shows the
settle wait was never entered. -/
theorem deploy_scaleup_fail_c6 (env : Env) (clock : Nat) (r : Repo)
    (hinit : r.isInitialised = true)
    (hfail : ((env.exec (deployUpCmdOf env r)).err.isSome ||
              (env.exec (deployUpCmdOf env r)).exitCode != 0) = true) :
    DeployContainers env clock r =
      (.error (.execError (env.exec (deployUpCmdOf env r)).exitCode
                          (env.exec (deployUpCmdOf env r)).stderr),
       (workDirOr env r).2, clock, [.exec (deployUpCmdOf env r)]) := by
  simp [DeployContainers, hinit, hfail]

/-- Witness for C6 at a concrete input: scale-up exits 1. -/
theorem deploy_scaleup_fail_c6_witness :
    (envDockerFail.exec (deployUpCmdOf envDockerFail repoWInit)).exitCode = 1 ∧
    DeployContainers envDockerFail 0 repoWInit =
      (.error (.execError 1 "boom"), repoWInit, 0,
       [.exec (deployUpCmdOf envDockerFail repoWInit)]) :=
  ⟨by decide, by
    have h := deploy_scaleup_fail_c6 envDockerFail 0 repoWInit rfl (by decide)
    rw [h]; decide⟩

/-- Claim C7: for every initialized repository controller, when the
scale-up step succeeds but the context is observed cancelled during the
settle wait, deploy aborts with the cancellation failure and the trace
holds only the scale-up command: no completed wait, no scale-down. -/
theorem deploy_cancel_wait_c7 (env : Env) (clock : Nat) (r : Repo)
    (hinit : r.isInitialised = true)
    (he : (env.exec (deployUpCmdOf env r)).err = none)
    (hx : (env.exec (deployUpCmdOf env r)).exitCode = 0)
    (hc : env.cancelled clock = true) :
    DeployContainers env clock r =
      (.error .cancelled, (workDirOr env r).2, clock + 1, [.exec (deployUpCmdOf env r)]) := by
  simp [DeployContainers, hinit, he, hx, hc]

/-- Witness for C7 at a concrete input: cancellation during the wait. -/
theorem deploy_cancel_wait_c7_witness :
    (envCancelNow.exec (deployUpCmdOf envCancelNow repoWInit)).exitCode = 0 ∧
    envCancelNow.cancelled 0 = true ∧
    DeployContainers envCancelNow 0 repoWInit =
      (.error .cancelled, repoWInit, 1, [.exec (deployUpCmdOf envCancelNow repoWInit)]) :=
  ⟨by decide, rfl, by
    have h := deploy_cancel_wait_c7 envCancelNow 0 repoWInit rfl (by decide) (by decide) rfl
    rw [h]; decide⟩

/-- getWorkingPath never changes the initialized flag. -/
theorem getWorkingPath_isInit (env : Env) (r : Repo) :
    ((getWorkingPath env r).2).isInitialised = r.isInitialised := by
  unfold getWorkingPath
  split
  · rfl
  · split
    · rfl
    · split <;> rfl

/-- getWorkingPath never changes the configuration. -/
theorem getWorkingPath_config (env : Env) (r : Repo) :
    ((getWorkingPath env r).2).config = r.config := by
  unfold getWorkingPath
  split
  · rfl
  · split
    · rfl
    · split <;> rfl

/-- A successful clone marks the controller initialized. -/
theorem doClone_ok_flag (env : Env) (r : Repo) (h : (doClone env r).1 = .ok ()) :
    ((doClone env r).2.1).isInitialised = true := by
  by_cases h1 : (env.exec (cloneCmd r.config)).err.isSome = true
  · simp [doClone, h1] at h
  · by_cases h2 : (env.exec (cloneCmd r.config)).exitCode = 0
    · simp [doClone, h1, h2]
    · simp [doClone, h1, h2, bne_iff_ne] at h

/-- A failed clone leaves the controller state untouched. -/
theorem doClone_error_repo (env : Env) (r : Repo) (e : RErr)
    (h : (doClone env r).1 = .error e) : (doClone env r).2.1 = r := by
  by_cases h1 : (env.exec (cloneCmd r.config)).err.isSome = true
  · simp [doClone, h1]
  · by_cases h2 : (env.exec (cloneCmd r.config)).exitCode = 0
    · simp [doClone, h1, h2] at h
    · simp [doClone, h1, h2, bne_iff_ne]

/-- The clone trace always holds exactly the clone command. -/
theorem doClone_trace (env : Env) (r : Repo) :
    (doClone env r).2.2 = [.exec (cloneCmd r.config)] := by
  by_cases h1 : (env.exec (cloneCmd r.config)).err.isSome = true
  · simp [doClone, h1]
  · by_cases h2 : (env.exec (cloneCmd r.config)).exitCode = 0
    · simp [doClone, h1, h2]
    · simp [doClone, h1, h2, bne_iff_ne]

/-- An already-initialized controller returns at once with no events. -/
theorem ensureCloned_already (env : Env) (r : Repo) (h : r.isInitialised = true) :
    ensureCloned env r = (.ok (), r, []) := by
  simp [ensureCloned, h]

/-- A successful ensureCloned leaves the controller initialized. -/
theorem ensureCloned_ok_flag (env : Env) (r : Repo) (h : (ensureCloned env r).1 = .ok ()) :
    ((ensureCloned env r).2.1).isInitialised = true := by
  by_cases hinit : r.isInitialised = true
  · simp [ensureCloned, hinit]
  · rcases hg : getWorkingPath env r with ⟨res, r1⟩
    cases res with
    | error e => simp [ensureCloned, hinit, hg] at h
    | ok wd =>
      cases hs : env.stat (joinPath wd ".git") with
      | ok => simp [ensureCloned, hinit, hg, hs]
      | otherError m => simp [ensureCloned, hinit, hg, hs] at h
      | notExist =>
        cases hb : env.stat r1.config.basePath with
        | otherError m => simp [ensureCloned, hinit, hg, hs, hb] at h
        | ok =>
          simp only [ensureCloned, hinit, hg, hs, hb, Bool.not_eq_true] at h ⊢
          simp only [Bool.eq_false_iff, ne_eq] at hinit
          simp [hinit] at h ⊢
          exact doClone_ok_flag env r1 h
        | notExist =>
          cases hm : env.mkdir r1.config.basePath with
          | some m => simp [ensureCloned, hinit, hg, hs, hb, hm] at h
          | none =>
            simp only [ensureCloned, hinit, hg, hs, hb, hm, Bool.not_eq_true] at h ⊢
            simp only [Bool.eq_false_iff, ne_eq] at hinit
            simp [hinit] at h ⊢
            exact doClone_ok_flag env r1 h

/-- A failed ensureCloned never changes the initialized flag. -/
theorem ensureCloned_error_flag (env : Env) (r : Repo) (e : RErr)
    (h : (ensureCloned env r).1 = .error e) :
    ((ensureCloned env r).2.1).isInitialised = r.isInitialised := by
  by_cases hinit : r.isInitialised = true
  · simp [ensureCloned, hinit] at h
  · rcases hg : getWorkingPath env r with ⟨res, r1⟩
    have hr1 : r1.isInitialised = r.isInitialised := by
      have := getWorkingPath_isInit env r
      rw [hg] at this
      exact this
    cases res with
    | error e2 => simp [ensureCloned, hinit, hg, hr1]
    | ok wd =>
      cases hs : env.stat (joinPath wd ".git") with
      | ok => simp [ensureCloned, hinit, hg, hs] at h
      | otherError m => simp [ensureCloned, hinit, hg, hs, hr1]
      | notExist =>
        cases hb : env.stat r1.config.basePath with
        | otherError m => simp [ensureCloned, hinit, hg, hs, hb, hr1]
        | ok =>
          simp only [ensureCloned, hinit, hg, hs, hb, Bool.not_eq_true] at h ⊢
          simp only [Bool.eq_false_iff, ne_eq] at hinit
          simp [hinit] at h ⊢
          rw [doClone_error_repo env r1 e h, hr1]
          exact Bool.eq_false_iff.mpr hinit
        | notExist =>
          cases hm : env.mkdir r1.config.basePath with
          | some m => simp [ensureCloned, hinit, hg, hs, hb, hm, hr1]
          | none =>
            simp only [ensureCloned, hinit, hg, hs, hb, hm, Bool.not_eq_true] at h ⊢
            simp only [Bool.eq_false_iff, ne_eq] at hinit
            simp [hinit] at h ⊢
            rw [doClone_error_repo env r1 e h, hr1]
            exact Bool.eq_false_iff.mpr hinit

/-- One ensureCloned call issues either no command or exactly the clone command. -/
theorem ensureCloned_trace_shape (env : Env) (r : Repo) :
    (ensureCloned env r).2.2 = [] ∨ (ensureCloned env r).2.2 = [.exec (cloneCmd r.config)] := by
  by_cases hinit : r.isInitialised = true
  · left; simp [ensureCloned, hinit]
  · rcases hg : getWorkingPath env r with ⟨res, r1⟩
    have hcfg : r1.config = r.config := by
      have := getWorkingPath_config env r; rw [hg] at this; exact this
    cases res with
    | error e => left; simp [ensureCloned, hinit, hg]
    | ok wd =>
      cases hs : env.stat (joinPath wd ".git") with
      | ok => left; simp [ensureCloned, hinit, hg, hs]
      | otherError m => left; simp [ensureCloned, hinit, hg, hs]
      | notExist =>
        cases hb : env.stat r1.config.basePath with
        | otherError m => left; simp [ensureCloned, hinit, hg, hs, hb]
        | ok =>
          right; rw [hcfg] at hb
          simp [ensureCloned, hinit, hg, hs, hb, doClone_trace, hcfg]
        | notExist =>
          cases hm : env.mkdir r1.config.basePath with
          | some m => left; simp [ensureCloned, hinit, hg, hs, hb, hm]
          | none =>
            right; rw [hcfg] at hb hm
            simp [ensureCloned, hinit, hg, hs, hb, hm, doClone_trace, hcfg]

/-- One ensureCloned call issues the clone command at most once. -/
theorem cloneCount_ensureCloned (env : Env) (r : Repo) :
    cloneCount (ensureCloned env r).2.2 ≤ 1 := by
  rcases ensureCloned_trace_shape env r with h | h <;> rw [h] <;>
    simp [cloneCount, List.countP_cons, List.countP_nil] <;> split <;> simp

/-- Counterexample to C5 as stated: in an environment where nothing
exists on disk yet and the clone command always fails with exit code 1,
two consecutive calls of ensure-initialized both issue the clone
command, so the clone is not issued at most once in total. -/
theorem ensureCloned_retry_counterexample_c5 :
    ¬ (cloneCount ((ensureCloned envCloneFail repoW).2.2 ++
        (ensureCloned envCloneFail (ensureCloned envCloneFail repoW).2.1).2.2) ≤ 1) := by
  decide

/-- Claim C5 (amended): a call of ensure-initialized on an initialized
controller returns success at once with no external command; after any
successful call a second call (in any environment) again issues no
command, so two calls issue the clone at most once whenever the first
call succeeds; a failed call (in particular a failed clone) leaves the
initialized flag unchanged, and the next call may retry the clone. -/
theorem ensureCloned_idempotent_amended_c5 (env env2 : Env) (r : Repo) :
    (r.isInitialised = true → ensureCloned env r = (.ok (), r, [])) ∧
    (∀ r1 t1, ensureCloned env r = (.ok (), r1, t1) →
      ensureCloned env2 r1 = (.ok (), r1, []) ∧ cloneCount t1 ≤ 1) ∧
    (∀ e r1 t1, ensureCloned env r = (.error e, r1, t1) →
      r1.isInitialised = r.isInitialised) := by
  refine ⟨fun h => ensureCloned_already env r h, fun r1 t1 h => ⟨?_, ?_⟩, fun e r1 t1 h => ?_⟩
  · have hfst : (ensureCloned env r).1 = .ok () := by rw [h]
    have hflag := ensureCloned_ok_flag env r hfst
    have hsnd : (ensureCloned env r).2.1 = r1 := by rw [h]
    rw [hsnd] at hflag
    exact ensureCloned_already env2 r1 hflag
  · have htr : (ensureCloned env r).2.2 = t1 := by rw [h]
    rw [← htr]
    exact cloneCount_ensureCloned env r
  · have hfst : (ensureCloned env r).1 = .error e := by rw [h]
    have hflag := ensureCloned_error_flag env r e hfst
    have hsnd : (ensureCloned env r).2.1 = r1 := by rw [h]
    rw [hsnd] at hflag
    exact hflag

/-- Witness for the amended C5 at a concrete input: a first successful
call initializes with no clone, a second call is an immediate no-op. -/
theorem ensureCloned_idempotent_amended_c5_witness :
    ensureCloned envEq repoW = (.ok (), repoWInit, []) ∧
    ensureCloned envEq repoWInit = (.ok (), repoWInit, []) ∧
    cloneCount ([] : List Event) ≤ 1 :=
  ⟨by decide,
   ((ensureCloned_idempotent_amended_c5 envEq envEq repoW).2.1 repoWInit [] (by decide)).1,
   ((ensureCloned_idempotent_amended_c5 envEq envEq repoW).2.1 repoWInit [] (by decide)).2⟩

/-- The clone command belongs to none of the pull, build, deploy steps. -/
theorem isDeployStep_clone (cfg : RepositoryConfig) :
    Event.isDeployStep (.exec (cloneCmd cfg)) = false := rfl

/-- The fetch command belongs to none of the pull, build, deploy steps. -/
theorem isDeployStep_fetch (wd b : String) :
    Event.isDeployStep (.exec (fetchCmd wd b)) = false := rfl

/-- The local rev-parse command belongs to none of the pull, build, deploy steps. -/
theorem isDeployStep_revParseHead (wd : String) :
    Event.isDeployStep (.exec (revParseHeadCmd wd)) = false := rfl

/-- The remote rev-parse command belongs to none of the pull, build, deploy steps. -/
theorem isDeployStep_revParseRemote (wd b : String) :
    Event.isDeployStep (.exec (revParseRemoteCmd wd b)) = false := rfl

/-- The ancestor-check command belongs to none of the pull, build, deploy steps. -/
theorem isDeployStep_mergeBase (wd lo re : String) :
    Event.isDeployStep (.exec (mergeBaseCmd wd lo re)) = false := rfl

/-- The pull command is neither a build nor a scale command. -/
theorem isBuildOrScale_pull (wd b : String) :
    Event.isBuildOrScale (.exec (pullCmd wd b)) = false := rfl

/-- The build command is not a scale command. -/
theorem isScaleStep_build (wd cfp svc : String) :
    Event.isScaleStep (.exec (buildCmd wd cfp svc)) = false := rfl

/-- ensureCloned issues no pull, build or scale command. -/
theorem noDeployCmds_ensureCloned (env : Env) (r : Repo) :
    noDeployCmds (ensureCloned env r).2.2 = true := by
  rcases ensureCloned_trace_shape env r with h | h <;> simp [noDeployCmds, h, isDeployStep_clone]

/-- CheckForUpdates issues no pull, build or scale command. -/
theorem noDeployCmds_check (env : Env) (r : Repo) :
    noDeployCmds (CheckForUpdates env r).2.2 = true := by
  unfold CheckForUpdates
  split_ifs <;>
    (try simp [noDeployCmds, isDeployStep_fetch, isDeployStep_revParseHead,
      isDeployStep_revParseRemote, isDeployStep_mergeBase,
      fetchCmdOf, localCmdOf, remoteCmdOf, ancestorCmdOf]) <;>
    split_ifs <;>
    simp [noDeployCmds, isDeployStep_fetch, isDeployStep_revParseHead,
      isDeployStep_revParseRemote, isDeployStep_mergeBase,
      fetchCmdOf, localCmdOf, remoteCmdOf, ancestorCmdOf]

/-- PullChanges issues no build or scale command. -/
theorem noBuildScale_pull (env : Env) (r : Repo) :
    noBuildScale (PullChanges env r).2.2 = true := by
  unfold PullChanges
  split_ifs <;> (try simp [noBuildScale, pullCmdOf, isBuildOrScale_pull]) <;>
    split_ifs <;> simp [noBuildScale, pullCmdOf, isBuildOrScale_pull]

/-- BuildContainers issues no scale command. -/
theorem noScaleCmds_build (env : Env) (r : Repo) :
    noScaleCmds (BuildContainers env r).2.2 = true := by
  unfold BuildContainers
  split_ifs <;> (try simp [noScaleCmds, buildCmdOf, isScaleStep_build]) <;>
    split_ifs <;> simp [noScaleCmds, buildCmdOf, isScaleStep_build]

/-- A trace without pull, build or scale commands has no build or scale command. -/
theorem noBuildScale_of_noDeployCmds (t : List Event) (h : noDeployCmds t = true) :
    noBuildScale t = true := by
  simp only [noDeployCmds, List.all_eq_true, Bool.not_eq_true'] at h
  simp only [noBuildScale, List.all_eq_true, Bool.not_eq_true']
  intro e he
  have hh := h e he
  cases e with
  | exec c =>
    simp only [Event.isDeployStep, Bool.or_eq_false_iff] at hh
    simp only [Event.isBuildOrScale, Bool.or_eq_false_iff]
    tauto
  | wait => rfl

/-- A trace without build or scale commands has no scale command. -/
theorem noScaleCmds_of_noBuildScale (t : List Event) (h : noBuildScale t = true) :
    noScaleCmds t = true := by
  simp only [noBuildScale, List.all_eq_true, Bool.not_eq_true'] at h
  simp only [noScaleCmds, List.all_eq_true, Bool.not_eq_true']
  intro e he
  have hh := h e he
  cases e with
  | exec c =>
    simp only [Event.isBuildOrScale, Bool.or_eq_false_iff] at hh
    simp only [Event.isScaleStep, Bool.or_eq_false_iff]
    tauto
  | wait => rfl

/-- noDeployCmds distributes over trace concatenation. -/
theorem noDeployCmds_append (a b : List Event) :
    noDeployCmds (a ++ b) = (noDeployCmds a && noDeployCmds b) := by
  simp [noDeployCmds, List.all_append]

/-- noBuildScale distributes over trace concatenation. -/
theorem noBuildScale_append (a b : List Event) :
    noBuildScale (a ++ b) = (noBuildScale a && noBuildScale b) := by
  simp [noBuildScale, List.all_append]

/-- noScaleCmds distributes over trace concatenation. -/
theorem noScaleCmds_append (a b : List Event) :
    noScaleCmds (a ++ b) = (noScaleCmds a && noScaleCmds b) := by
  simp [noScaleCmds, List.all_append]

/-- Unfolding Process when ensure-initialized fails. -/
theorem Process_init_error (env : Env) (clock : Nat) (r : Repo) (e : RErr)
    (r1 : Repo) (t1 : List Event)
    (h : ensureCloned env r = (.error e, r1, t1)) :
    Process env clock r = (.error e, r1, clock, t1) := by
  unfold Process; rw [h]

/-- Unfolding Process when the context is cancelled right after ensure-initialized. -/
theorem Process_cancel_after_init (env : Env) (clock : Nat) (r r1 : Repo) (t1 : List Event)
    (h : ensureCloned env r = (.ok (), r1, t1)) (hc : env.cancelled clock = true) :
    Process env clock r = (.error .cancelled, r1, clock + 1, t1) := by
  unfold Process; rw [h]; simp [hc]

/-- Unfolding Process when detect-updates fails. -/
theorem Process_check_error (env : Env) (clock : Nat) (r r1 : Repo) (t1 : List Event)
    (e : RErr) (r2 : Repo) (t2 : List Event)
    (h1 : ensureCloned env r = (.ok (), r1, t1))
    (hc0 : env.cancelled clock = false)
    (h2 : CheckForUpdates env r1 = (.error e, r2, t2)) :
    Process env clock r = (.error e, r2, clock + 1, t1 ++ t2) := by
  unfold Process; rw [h1]; simp [hc0, h2]

/-- Unfolding Process when detect-updates reports no updates. -/
theorem Process_noupdates_eq (env : Env) (clock : Nat) (r r1 : Repo) (t1 : List Event)
    (r2 : Repo) (t2 : List Event)
    (h1 : ensureCloned env r = (.ok (), r1, t1))
    (hc0 : env.cancelled clock = false)
    (h2 : CheckForUpdates env r1 = (.ok false, r2, t2)) :
    Process env clock r =
      ((if env.cancelled (clock + 1) then .error .cancelled else .ok ()),
       r2, clock + 2, t1 ++ t2) := by
  unfold Process; rw [h1]
  by_cases hc1 : env.cancelled (clock + 1) = true <;> simp [hc0, h2, hc1]

/-- Unfolding Process when pull fails. -/
theorem Process_pull_error (env : Env) (clock : Nat) (r r1 : Repo) (t1 : List Event)
    (r2 : Repo) (t2 : List Event) (e : RErr) (r3 : Repo) (t3 : List Event)
    (h1 : ensureCloned env r = (.ok (), r1, t1))
    (hc0 : env.cancelled clock = false)
    (h2 : CheckForUpdates env r1 = (.ok true, r2, t2))
    (hc1 : env.cancelled (clock + 1) = false)
    (h3 : PullChanges env r2 = (.error e, r3, t3)) :
    Process env clock r = (.error e, r3, clock + 2, t1 ++ t2 ++ t3) := by
  unfold Process; rw [h1]; simp [hc0, h2, hc1, h3]

/-- Unfolding Process when build fails. -/
theorem Process_build_error (env : Env) (clock : Nat) (r r1 : Repo) (t1 : List Event)
    (r2 : Repo) (t2 : List Event) (r3 : Repo) (t3 : List Event)
    (e : RErr) (r4 : Repo) (t4 : List Event)
    (h1 : ensureCloned env r = (.ok (), r1, t1))
    (hc0 : env.cancelled clock = false)
    (h2 : CheckForUpdates env r1 = (.ok true, r2, t2))
    (hc1 : env.cancelled (clock + 1) = false)
    (h3 : PullChanges env r2 = (.ok (), r3, t3))
    (hc2 : env.cancelled (clock + 2) = false)
    (h4 : BuildContainers env r3 = (.error e, r4, t4)) :
    Process env clock r = (.error e, r4, clock + 3, t1 ++ t2 ++ t3 ++ t4) := by
  unfold Process; rw [h1]; simp [hc0, h2, hc1, h3, hc2, h4]

/-- Unfolding Process when deploy fails. -/
theorem Process_deploy_error (env : Env) (clock : Nat) (r r1 : Repo) (t1 : List Event)
    (r2 : Repo) (t2 : List Event) (r3 : Repo) (t3 : List Event) (r4 : Repo) (t4 : List Event)
    (e : RErr) (r5 : Repo) (c5 : Nat) (t5 : List Event)
    (h1 : ensureCloned env r = (.ok (), r1, t1))
    (hc0 : env.cancelled clock = false)
    (h2 : CheckForUpdates env r1 = (.ok true, r2, t2))
    (hc1 : env.cancelled (clock + 1) = false)
    (h3 : PullChanges env r2 = (.ok (), r3, t3))
    (hc2 : env.cancelled (clock + 2) = false)
    (h4 : BuildContainers env r3 = (.ok (), r4, t4))
    (hc3 : env.cancelled (clock + 3) = false)
    (h5 : DeployContainers env (clock + 4) r4 = (.error e, r5, c5, t5)) :
    Process env clock r = (.error e, r5, c5, t1 ++ t2 ++ t3 ++ t4 ++ t5) := by
  unfold Process; rw [h1]; simp [hc0, h2, hc1, h3, hc2, h4, hc3, h5]

/-- Unfolding Process when every step succeeds. -/
theorem Process_all_ok (env : Env) (clock : Nat) (r r1 : Repo) (t1 : List Event)
    (r2 : Repo) (t2 : List Event) (r3 : Repo) (t3 : List Event) (r4 : Repo) (t4 : List Event)
    (r5 : Repo) (c5 : Nat) (t5 : List Event)
    (h1 : ensureCloned env r = (.ok (), r1, t1))
    (hc0 : env.cancelled clock = false)
    (h2 : CheckForUpdates env r1 = (.ok true, r2, t2))
    (hc1 : env.cancelled (clock + 1) = false)
    (h3 : PullChanges env r2 = (.ok (), r3, t3))
    (hc2 : env.cancelled (clock + 2) = false)
    (h4 : BuildContainers env r3 = (.ok (), r4, t4))
    (hc3 : env.cancelled (clock + 3) = false)
    (h5 : DeployContainers env (clock + 4) r4 = (.ok (), r5, c5, t5)) :
    Process env clock r =
      ((if env.cancelled c5 then .error .cancelled else .ok ()),
       r5, c5 + 1, t1 ++ t2 ++ t3 ++ t4 ++ t5) := by
  unfold Process; rw [h1]
  by_cases hc5 : env.cancelled c5 = true <;> simp [hc0, h2, hc1, h3, hc2, h4, hc3, h5, hc5]

/-- Claim C4: process-once runs ensure-initialized, detect-updates,
pull, build, deploy strictly in that order; whichever step fails first,
its failure is returned to the caller unchanged, and the trace shows no
later-step command was issued; when every step succeeds the trace is
the concatenation of the step traces in order. -/
theorem process_order_shortcircuit_c4 (env : Env) (clock : Nat) (r : Repo) :
    (∀ e r1 t1, ensureCloned env r = (.error e, r1, t1) →
      Process env clock r = (.error e, r1, clock, t1) ∧ noDeployCmds t1 = true) ∧
    (∀ r1 t1 e r2 t2, ensureCloned env r = (.ok (), r1, t1) →
      env.cancelled clock = false →
      CheckForUpdates env r1 = (.error e, r2, t2) →
      Process env clock r = (.error e, r2, clock + 1, t1 ++ t2) ∧
        noDeployCmds (t1 ++ t2) = true) ∧
    (∀ r1 t1 r2 t2 e r3 t3, ensureCloned env r = (.ok (), r1, t1) →
      env.cancelled clock = false →
      CheckForUpdates env r1 = (.ok true, r2, t2) →
      env.cancelled (clock + 1) = false →
      PullChanges env r2 = (.error e, r3, t3) →
      Process env clock r = (.error e, r3, clock + 2, t1 ++ t2 ++ t3) ∧
        noBuildScale (t1 ++ t2 ++ t3) = true) ∧
    (∀ r1 t1 r2 t2 r3 t3 e r4 t4, ensureCloned env r = (.ok (), r1, t1) →
      env.cancelled clock = false →
      CheckForUpdates env r1 = (.ok true, r2, t2) →
      env.cancelled (clock + 1) = false →
      PullChanges env r2 = (.ok (), r3, t3) →
      env.cancelled (clock + 2) = false →
      BuildContainers env r3 = (.error e, r4, t4) →
      Process env clock r = (.error e, r4, clock + 3, t1 ++ t2 ++ t3 ++ t4) ∧
        noScaleCmds (t1 ++ t2 ++ t3 ++ t4) = true) ∧
    (∀ r1 t1 r2 t2 r3 t3 r4 t4 e r5 c5 t5, ensureCloned env r = (.ok (), r1, t1) →
      env.cancelled clock = false →
      CheckForUpdates env r1 = (.ok true, r2, t2) →
      env.cancelled (clock + 1) = false →
      PullChanges env r2 = (.ok (), r3, t3) →
      env.cancelled (clock + 2) = false →
      BuildContainers env r3 = (.ok (), r4, t4) →
      env.cancelled (clock + 3) = false →
      DeployContainers env (clock + 4) r4 = (.error e, r5, c5, t5) →
      Process env clock r = (.error e, r5, c5, t1 ++ t2 ++ t3 ++ t4 ++ t5)) ∧
    (∀ r1 t1 r2 t2 r3 t3 r4 t4 r5 c5 t5, ensureCloned env r = (.ok (), r1, t1) →
      env.cancelled clock = false →
      CheckForUpdates env r1 = (.ok true, r2, t2) →
      env.cancelled (clock + 1) = false →
      PullChanges env r2 = (.ok (), r3, t3) →
      env.cancelled (clock + 2) = false →
      BuildContainers env r3 = (.ok (), r4, t4) →
      env.cancelled (clock + 3) = false →
      DeployContainers env (clock + 4) r4 = (.ok (), r5, c5, t5) →
      Process env clock r =
        ((if env.cancelled c5 then .error .cancelled else .ok ()),
         r5, c5 + 1, t1 ++ t2 ++ t3 ++ t4 ++ t5)) := by
  refine ⟨?_, ?_, ?_, ?_, ?_, ?_⟩
  · intro e r1 t1 h
    refine ⟨Process_init_error env clock r e r1 t1 h, ?_⟩
    have a1 := noDeployCmds_ensureCloned env r
    rw [h] at a1
    exact a1
  · intro r1 t1 e r2 t2 h1 hc0 h2
    refine ⟨Process_check_error env clock r r1 t1 e r2 t2 h1 hc0 h2, ?_⟩
    have a1 := noDeployCmds_ensureCloned env r
    rw [h1] at a1
    have a2 := noDeployCmds_check env r1
    rw [h2] at a2
    simp only [noDeployCmds_append, Bool.and_eq_true]
    exact ⟨a1, a2⟩
  · intro r1 t1 r2 t2 e r3 t3 h1 hc0 h2 hc1 h3
    refine ⟨Process_pull_error env clock r r1 t1 r2 t2 e r3 t3 h1 hc0 h2 hc1 h3, ?_⟩
    have a1 := noDeployCmds_ensureCloned env r
    rw [h1] at a1
    have a2 := noDeployCmds_check env r1
    rw [h2] at a2
    have a3 := noBuildScale_pull env r2
    rw [h3] at a3
    have b1 := noBuildScale_of_noDeployCmds _ a1
    have b2 := noBuildScale_of_noDeployCmds _ a2
    simp only [noBuildScale_append, Bool.and_eq_true]
    exact ⟨⟨b1, b2⟩, a3⟩
  · intro r1 t1 r2 t2 r3 t3 e r4 t4 h1 hc0 h2 hc1 h3 hc2 h4
    refine ⟨Process_build_error env clock r r1 t1 r2 t2 r3 t3 e r4 t4
      h1 hc0 h2 hc1 h3 hc2 h4, ?_⟩
    have a1 := noDeployCmds_ensureCloned env r
    rw [h1] at a1
    have a2 := noDeployCmds_check env r1
    rw [h2] at a2
    have a3 := noBuildScale_pull env r2
    rw [h3] at a3
    have a4 := noScaleCmds_build env r3
    rw [h4] at a4
    have b1 := noScaleCmds_of_noBuildScale _ (noBuildScale_of_noDeployCmds _ a1)
    have b2 := noScaleCmds_of_noBuildScale _ (noBuildScale_of_noDeployCmds _ a2)
    have b3 := noScaleCmds_of_noBuildScale _ a3
    simp only [noScaleCmds_append, Bool.and_eq_true]
    exact ⟨⟨⟨b1, b2⟩, b3⟩, a4⟩
  · intro r1 t1 r2 t2 r3 t3 r4 t4 e r5 c5 t5 h1 hc0 h2 hc1 h3 hc2 h4 hc3 h5
    exact Process_deploy_error env clock r r1 t1 r2 t2 r3 t3 r4 t4 e r5 c5 t5
      h1 hc0 h2 hc1 h3 hc2 h4 hc3 h5
  · intro r1 t1 r2 t2 r3 t3 r4 t4 r5 c5 t5 h1 hc0 h2 hc1 h3 hc2 h4 hc3 h5
    exact Process_all_ok env clock r r1 t1 r2 t2 r3 t3 r4 t4 r5 c5 t5
      h1 hc0 h2 hc1 h3 hc2 h4 hc3 h5

/-- Witness for C4 at a concrete input: pull fails with exit 1,
process-once returns that failure and issues no build or scale command. -/
theorem process_order_shortcircuit_c4_witness :
    PullChanges envPullFail repoWInit =
      (.error (.execError 1 "pullfail"), repoWInit, [.exec (pullCmd "/b/d" "main")]) ∧
    (Process envPullFail 0 repoW).1 = .error (.execError 1 "pullfail") ∧
    noBuildScale (Process envPullFail 0 repoW).2.2.2 = true := by
  have h := (process_order_shortcircuit_c4 envPullFail 0 repoW).2.2.1 repoWInit []
    repoWInit
    [.exec (fetchCmd "/b/d" "main"), .exec (revParseHeadCmd "/b/d"),
     .exec (revParseRemoteCmd "/b/d" "main"), .exec (mergeBaseCmd "/b/d" "abc123" "def456")]
    (.execError 1 "pullfail") repoWInit [.exec (pullCmd "/b/d" "main")]
    (by decide) (by decide) (by decide) (by decide) (by decide)
  refine ⟨by decide, ?_, ?_⟩
  · rw [h.1]
  · rw [h.1]; exact h.2

/-- Counterexample to C3 as stated: in an environment where every
command succeeds, the commits are equal, and the context becomes
cancelled right after the update check, detect-updates returns false
inside process-once yet process-once returns the cancellation failure,
not success. -/
theorem process_noupdates_cancel_counterexample_c3 :
    (CheckForUpdates envCancelAfterCheck
        (ensureCloned envCancelAfterCheck repoW).2.1).1 = .ok false ∧
    (Process envCancelAfterCheck 0 repoW).1 = .error .cancelled := by
  constructor <;> decide

/-- Claim C3 (amended): whenever detect-updates returns false inside
process-once, no pull, build, scale-up or scale-down command is issued
in that cycle, and process-once returns success unless the context is
observed cancelled at the cancellation check that follows the update
check, in which case the cancellation failure is returned (still with
no further commands). -/
theorem process_noupdates_amended_c3 (env : Env) (clock : Nat) (r r1 r2 : Repo)
    (t1 t2 : List Event)
    (h1 : ensureCloned env r = (.ok (), r1, t1))
    (hc0 : env.cancelled clock = false)
    (h2 : CheckForUpdates env r1 = (.ok false, r2, t2)) :
    Process env clock r =
      ((if env.cancelled (clock + 1) then .error .cancelled else .ok ()),
       r2, clock + 2, t1 ++ t2) ∧
    noDeployCmds (t1 ++ t2) = true := by
  refine ⟨Process_noupdates_eq env clock r r1 t1 r2 t2 h1 hc0 h2, ?_⟩
  have a1 := noDeployCmds_ensureCloned env r
  rw [h1] at a1
  have a2 := noDeployCmds_check env r1
  rw [h2] at a2
  simp only [noDeployCmds_append, Bool.and_eq_true]
  exact ⟨a1, a2⟩

/-- Witness for the amended C3 at a concrete input: no updates found,
no cancellation, process-once succeeds with no deploy-phase command. -/
theorem process_noupdates_amended_c3_witness :
    (Process envEq 0 repoW).1 = .ok () ∧
    noDeployCmds (Process envEq 0 repoW).2.2.2 = true := by
  have h := process_noupdates_amended_c3 envEq 0 repoW repoWInit repoWInit []
    [.exec (fetchCmd "/b/d" "main"), .exec (revParseHeadCmd "/b/d"),
     .exec (revParseRemoteCmd "/b/d" "main")]
    (by decide) (by decide) (by decide)
  refine ⟨?_, ?_⟩
  · rw [h.1]; decide
  · rw [h.1]; exact h.2

/-- Claim C10: when every step of process-once succeeds, including a
fully successful deploy, but the context is observed cancelled at the
final cancellation check, process-once returns the cancellation failure
rather than success, although the whole trace of external work was
completed. -/
theorem process_cancel_after_success_c10 (env : Env) (clock : Nat)
    (r r1 r2 r3 r4 r5 : Repo) (t1 t2 t3 t4 t5 : List Event) (c5 : Nat)
    (h1 : ensureCloned env r = (.ok (), r1, t1))
    (hc0 : env.cancelled clock = false)
    (h2 : CheckForUpdates env r1 = (.ok true, r2, t2))
    (hc1 : env.cancelled (clock + 1) = false)
    (h3 : PullChanges env r2 = (.ok (), r3, t3))
    (hc2 : env.cancelled (clock + 2) = false)
    (h4 : BuildContainers env r3 = (.ok (), r4, t4))
    (hc3 : env.cancelled (clock + 3) = false)
    (h5 : DeployContainers env (clock + 4) r4 = (.ok (), r5, c5, t5))
    (hc5 : env.cancelled c5 = true) :
    Process env clock r = (.error .cancelled, r5, c5 + 1, t1 ++ t2 ++ t3 ++ t4 ++ t5) := by
  have h := Process_all_ok env clock r r1 t1 r2 t2 r3 t3 r4 t4 r5 c5 t5
    h1 hc0 h2 hc1 h3 hc2 h4 hc3 h5
  rw [h, hc5]
  simp

/-- Witness for C10 at a concrete input: deploy completes in full and
the context is cancelled at the final check. -/
theorem process_cancel_after_success_c10_witness :
    DeployContainers envCancelAfterDeploy 4 repoWInit =
      (.ok (), repoWInit, 5,
       [.exec (scaleUpCmd "/b/d" "/b/d/c.yml" "svc" 2), .wait,
        .exec (scaleDownCmd "/b/d" "/b/d/c.yml" "svc" 1)]) ∧
    (Process envCancelAfterDeploy 0 repoW).1 = .error .cancelled := by
  have h := process_cancel_after_success_c10 envCancelAfterDeploy 0 repoW repoWInit repoWInit
    repoWInit repoWInit repoWInit []
    [.exec (fetchCmd "/b/d" "main"), .exec (revParseHeadCmd "/b/d"),
     .exec (revParseRemoteCmd "/b/d" "main"), .exec (mergeBaseCmd "/b/d" "abc123" "def456")]
    [.exec (pullCmd "/b/d" "main")]
    [.exec (buildCmd "/b/d" "/b/d/c.yml" "svc")]
    [.exec (scaleUpCmd "/b/d" "/b/d/c.yml" "svc" 2), .wait,
     .exec (scaleDownCmd "/b/d" "/b/d/c.yml" "svc" 1)] 5
    (by decide) (by decide) (by decide) (by decide) (by decide) (by decide) (by decide)
    (by decide) (by decide) (by decide)
  exact ⟨by decide, by rw [h]⟩

/-- A validated entry is exactly the entry with the defaults applied. -/
theorem validateRepo_ok (i : Nat) (repo repo1 : RepositoryConfig)
    (h : validateRepo i repo = .ok repo1) : repo1 = applyDefaults repo := by
  unfold validateRepo at h
  split_ifs at h <;> simp_all

/-- A successful validate-and-default pass maps the defaulting over the entries. -/
theorem validateAndDefault_ok (repos : List RepositoryConfig) :
    ∀ i out, validateAndDefault i repos = .ok out → out = repos.map applyDefaults := by
  induction repos with
  | nil =>
    intro i out h
    simp only [validateAndDefault] at h
    cases h
    rfl
  | cons repo rest ih =>
    intro i out h
    simp only [validateAndDefault] at h
    cases hv : validateRepo i repo with
    | error e => rw [hv] at h; cases h
    | ok repo1 =>
      rw [hv] at h
      cases hr : validateAndDefault (i + 1) rest with
      | error e => rw [hr] at h; cases h
      | ok rest1 =>
        rw [hr] at h
        cases h
        rw [List.map_cons, validateRepo_ok i repo repo1 hv, ih (i + 1) rest1 hr]

/-- Claim C8: every configuration that loads successfully carries
exactly the defaulted entries: an unset compose-file name becomes
docker-compose.yml, an unset or non-positive poll interval becomes 300
seconds, and every other field of every entry is unchanged. -/
theorem loadConfig_defaults_c8 (cfg out : AppConfig)
    (h : LoadConfig cfg = .ok out) :
    out.repositories = cfg.repositories.map applyDefaults ∧
    DefaultCheckIntervalSeconds = 300 ∧
    DefaultComposeFile = "docker-compose.yml" ∧
    (∀ repo : RepositoryConfig,
      (applyDefaults repo).composeFile =
        (if repo.composeFile = "" then DefaultComposeFile else repo.composeFile) ∧
      (applyDefaults repo).checkIntervalSeconds =
        (if repo.checkIntervalSeconds ≤ 0 then DefaultCheckIntervalSeconds
         else repo.checkIntervalSeconds) ∧
      (applyDefaults repo).basePath = repo.basePath ∧
      (applyDefaults repo).gitURL = repo.gitURL ∧
      (applyDefaults repo).cloneDirName = repo.cloneDirName ∧
      (applyDefaults repo).branch = repo.branch ∧
      (applyDefaults repo).serviceName = repo.serviceName) := by
  refine ⟨?_, by decide, by decide, fun repo => ?_⟩
  · unfold LoadConfig at h
    cases hv : validateAndDefault 0 cfg.repositories with
    | error e => rw [hv] at h; cases h
    | ok repos =>
      rw [hv] at h
      cases h
      exact validateAndDefault_ok cfg.repositories 0 repos hv
  · by_cases c1 : repo.composeFile = "" <;> by_cases c2 : repo.checkIntervalSeconds ≤ 0 <;>
      simp [applyDefaults, c1, c2]

/-- Witness for C8 at a concrete input: unset compose file and zero
interval become the defaults. -/
theorem loadConfig_defaults_c8_witness :
    LoadConfig cfgRaw = .ok cfgDefaulted ∧
    cfgDefaulted.repositories = cfgRaw.repositories.map applyDefaults :=
  ⟨by decide, (loadConfig_defaults_c8 cfgRaw cfgDefaulted (by decide)).1⟩

/-- Counterexample to C9 as stated: when the tick and the cancellation
signal are both ready, the Go select may pick the tick branch (the
choice among ready branches is pseudo-random, not prioritized), and the
loop then runs one more process-once cycle before exiting. -/
theorem monitor_tick_race_counterexample_c9 :
    (monitorStep envTickRace 0 repoW true true SelectBranch.tick).1.ranCycle = true ∧
    (monitorStep envTickRace 0 repoW true true SelectBranch.tick).1.exited = true := by
  constructor <;> decide

/-- Claim C9 (amended): when the tick and the cancellation signal are
both ready, the select commits to either branch; if it commits to
cancellation the loop exits at once without running a cycle, and if it
commits to the tick it runs one more process-once cycle and still
exits, since cancellation is re-checked after the cycle. When only the
cancellation signal is ready the loop always exits without a cycle. -/
theorem monitor_cancel_race_amended_c9 (env : Env) (clock : Nat) (r : Repo)
    (choose : SelectBranch) :
    (monitorStep env clock r true true choose).1.exited = true ∧
    (choose = SelectBranch.done →
      (monitorStep env clock r true true choose).1 = ⟨true, false, []⟩ ∧
      (monitorStep env clock r true true choose).2 = r) ∧
    (monitorStep env clock r false true choose).1 = ⟨true, false, []⟩ := by
  refine ⟨?_, fun hch => ?_, ?_⟩
  · cases choose <;> simp [monitorStep]
  · subst hch; constructor <;> simp [monitorStep]
  · simp [monitorStep]

/-- Witness for the amended C9 at a concrete input: the cancellation
branch exits without a cycle. -/
theorem monitor_cancel_race_amended_c9_witness :
    (monitorStep envTickRace 0 repoW true true SelectBranch.done).1 = ⟨true, false, []⟩ :=
  ((monitor_cancel_race_amended_c9 envTickRace 0 repoW SelectBranch.done).2.1 rfl).1
